import Mathlib

/-!
Verification of `src/js/boilerplate/mouse.js` (pointer tracking, hover
hit-testing and edge-triggered viewport scrolling for an HTML5 canvas
game boilerplate).

JavaScript numbers are modelled as rationals (`ℚ`); `Math.round` is
modelled as `fun q => ⌊q + 1/2⌋`, which matches JavaScript semantics
including the half-up behaviour on negative halves
(`Math.round(-0.5) = -0 = ⌊0⌋`). The module-level mutable variables of
the source are threaded through explicit state records; external
collaborators (the `world` object, the `canvas`, `App.physicsDelta`,
the active easing function) are passed as parameters. The four easing
functions themselves are additionally embedded over `ℝ` because
`SMOOTH` and `EXPONENTIAL` use `Math.cos` / `Math.sqrt`.

The rendering side effects (`context.translate`) and `console.error`
logging have no observable effect on the modelled state and are noted
in comments where they occur in the source.
-/

set_option autoImplicit false

/-- Pointer coordinates, `Mouse.coords` in the source (line 33):
`{x, y}` relative to the upper-left corner of the canvas. -/
structure Coords where
  x : ℚ
  y : ℚ
  deriving DecidableEq

/-- A rectangle-shaped object as required by `App.isHovered` (lines
107-108): fields `x`, `y`, `width`, `height` in world coordinates. -/
structure Box where
  x : ℚ
  y : ℚ
  width : ℚ
  height : ℚ
  deriving DecidableEq

/-- The canvas surface: pixel dimensions read by `translate`
(`canvas.width`, `canvas.height`). -/
structure Canvas where
  width : ℚ
  height : ℚ
  deriving DecidableEq

/-- The external `world` object (section 6 of the surrounding project):
mutable viewport offsets `xOffset`/`yOffset` and fixed content
dimensions `width`/`height`. -/
structure World where
  xOffset : ℚ
  yOffset : ℚ
  width : ℚ
  height : ℚ
  deriving DecidableEq

/-- JavaScript exceptions that the modelled code can raise:
a `ReferenceError` for reading an unbound identifier, a `TypeError`
for reading a property of `undefined`. -/
inductive JsError where
  | referenceError
  | typeError
  deriving DecidableEq

/-- `Math.round` in JavaScript: round half away from zero on positive
halves, half toward positive infinity in general; equals
`⌊q + 1/2⌋` for every finite input (source uses it at lines 162, 170,
179, 187). -/
def jsRound (q : ℚ) : ℤ := ⌊q + 1/2⌋

/-- `Math.min` on two finite numbers (source lines 162, 170, 179,
187). Written as an explicit comparison so that it evaluates by kernel
reduction; it agrees with `min` (see `jsMin_eq_min` below). -/
def jsMin (a b : ℚ) : ℚ := if a ≤ b then a else b

/-- Embedding of `App.isHovered` (lines 119-125). The source reads the
current offsets through `world.getOffsets()` (defined outside this
file); the offsets are therefore taken as a parameter. Strict
comparisons on all four sides, exactly as in the source:
`Mouse.coords.x > xPos && Mouse.coords.x < xPos + obj.width &&
Mouse.coords.y > yPos && Mouse.coords.y < yPos + obj.height`. -/
def App.isHovered (off : Coords) (mouse : Coords) (obj : Box) : Bool :=
  let xPos := obj.x - off.x
  let yPos := obj.y - off.y
  decide (mouse.x > xPos) && decide (mouse.x < xPos + obj.width) &&
    decide (mouse.y > yPos) && decide (mouse.y < yPos + obj.height)

/-! ### Pointer tracker (lines 36-102) -/

/-- A member of `e.originalEvent.touches`: only the coordinate fields
are read by the source (lines 42-43). -/
structure Touch where
  pageX : ℚ
  pageY : ℚ
  deriving DecidableEq

/-- Event kinds named in the tracker (lines 45, 72-73). -/
inductive EventType where
  | mousemove
  | touchmove
  | mousedown
  | mouseup
  | click
  | touchstart
  | touchend
  deriving DecidableEq

/-- A DOM event as read by `trackmove` (lines 39-59). `pageX`/`pageY`
are `none` when the property is `undefined` (a mouse event always has
them, a touch event does not). `touches` is `none` when
`e.originalEvent` or `e.originalEvent.touches` is `undefined`, and
`some l` for a touch list `l`. -/
structure JsEvent where
  type : EventType
  pageX : Option ℚ
  pageY : Option ℚ
  touches : Option (List Touch)
  deriving DecidableEq

/-- Reading `e.originalEvent.touches[0].pageX` (line 42, fallback arm
of `||`). Accessing `.touches` of an `undefined` `originalEvent`, or
`.pageX` of the `undefined` value `touches[0]` when the list is empty,
throws a `TypeError`. -/
def readTouchX (e : JsEvent) : Except JsError ℚ :=
  match e.touches with
  | none => .error .typeError
  | some [] => .error .typeError
  | some (t :: _) => .ok t.pageX

/-- Reading `e.originalEvent.touches[0].pageY` (line 43). -/
def readTouchY (e : JsEvent) : Except JsError ℚ :=
  match e.touches with
  | none => .error .typeError
  | some [] => .error .typeError
  | some (t :: _) => .ok t.pageY

/-- `var x = e.pageX || e.originalEvent.touches[0].pageX;` (line 42).
JavaScript `||` takes the right operand when the left is falsy, i.e.
`undefined` or `0`. -/
def readX (e : JsEvent) : Except JsError ℚ :=
  match e.pageX with
  | some v => if v = 0 then readTouchX e else .ok v
  | none => readTouchX e

/-- `var y = e.pageY || e.originalEvent.touches[0].pageY;` (line 43). -/
def readY (e : JsEvent) : Except JsError ℚ :=
  match e.pageY with
  | some v => if v = 0 then readTouchY e else .ok v
  | none => readTouchY e

/-- The coordinate-reading prefix of `trackmove` (lines 42-43): `x` is
read first; if it throws, `y` is never read. -/
def readEventCoords (e : JsEvent) : Except JsError (ℚ × ℚ) :=
  match readX e with
  | .error err => .error err
  | .ok x =>
    match readY e with
    | .error err => .error err
    | .ok y => .ok (x, y)

/-- State owned by the pointer tracker: `Mouse.coords` (line 33) and
whether the `mousemove.coords` handler is currently attached
(lines 62-69). -/
structure TrackerState where
  coords : Coords
  mousemoveAttached : Bool
  deriving DecidableEq

/-- Embedding of the `trackmove` handler (lines 39-59). The body runs
inside `try { ... } catch (ex) { console.error(...) }`: if reading
either coordinate throws, the exception is caught, a diagnostic is
logged (no modelled effect) and `Mouse.coords` is left unchanged.
Otherwise the coordinates are made canvas-relative by subtracting
`$canvas.offset()` (taken as the `canvasOffset` parameter) and stored.
The second component records whether `e.preventDefault()` was called
(line 46, only for `touchmove` events, and only when reading the
coordinates succeeded up to that point). -/
def trackmove (canvasOffset : Coords) (e : JsEvent) (s : TrackerState) :
    TrackerState × Bool :=
  match readEventCoords e with
  | .ok (x, y) =>
      ({ s with coords := ⟨x - canvasOffset.x, y - canvasOffset.y⟩ },
       decide (e.type = EventType.touchmove))
  | .error _ => (s, false)

/-- The hover-in handler (lines 64-65): attach `mousemove.coords`. -/
def hoverInHandler (s : TrackerState) : TrackerState :=
  { s with mousemoveAttached := true }

/-- The hover-out handler (lines 66-69): detach `mousemove.coords` and
reset `Mouse.coords` to the sentinel `{x: -9999, y: -9999}`. -/
def hoverOutHandler (_ : TrackerState) : TrackerState :=
  { coords := ⟨-9999, -9999⟩, mousemoveAttached := false }

/-! ### Edge scroller `Mouse.Scroll` (lines 136-383) -/

/-- The mutable variables of the `Mouse.Scroll` closure: `enabled`
(line 139), `hovered` (line 141), `translating` (line 143), `scrolled`
(line 145), plus the `mousedown` flag declared inside `enable`
(line 246) and one attachment counter per handler-attaching statement
of `enable` (lines 228, 235, 239, 247, 250). `THRESHOLD`, `MOVEAMOUNT`
and the active `easing` function are passed to the operations as
parameters. -/
structure ScrollState where
  enabled : Bool
  hovered : Bool
  mousedown : Bool
  translating : Bool
  scrolled : Coords
  moveOnceHandlers : Nat
  enterHandlers : Nat
  leaveHandlers : Nat
  downHandlers : Nat
  upHandlers : Nat
  deriving DecidableEq

/-- Result of one call to `translate` (lines 156-217): the updated
`world`, the updated cumulative `scrolled` record (also the source's
return value), the new `translating` flag, one indicator per edge
branch recording whether that branch ran, and whether the
`mousescrollon` / `mousescrolloff` document events fired
(lines 197-215). -/
structure TranslateResult where
  world : World
  scrolled : Coords
  translating : Bool
  firedLeft : Bool
  firedRight : Bool
  firedUp : Bool
  firedDown : Bool
  scrollOn : Bool
  scrollOff : Bool
  deriving DecidableEq

/-- Embedding of `translate` (lines 156-217). The horizontal axis is an
`if / else if` pair (Left, lines 160-166; Right, lines 168-174), then
the vertical axis is an independent `if / else if` pair (Up, lines
177-183; Down, lines 185-191). Each taken branch computes
`ma = Math.round(gradient * Math.min(room, MOVEAMOUNT * App.physicsDelta))`
and applies it to `world`'s offset and to `scrolled`; the matching
`context.translate` call (lines 165, 173, 182, 190) only moves the
rendering transform and is not modelled. Line 194 then recomputes
`translating` from the cumulative `scrolled` record:
`translating = scrolled.x !== 0 && scrolled.y !== 0;`
(note: `&&` of the two cumulative totals, exactly as in the source).
Lines 197-215 fire `mousescrollon` on a false-to-true transition and
`mousescrolloff` on a true-to-false transition. -/
def Scroll.translate (easing : ℚ → ℚ) (T M delta : ℚ) (cv : Canvas)
    (mc : Coords) (w0 : World) (sc0 : Coords) (translating0 : Bool) :
    TranslateResult :=
  let initialTranslationState := translating0
  -- Left (lines 160-166)
  let px : World × Coords × Bool × Bool :=
    if mc.x < cv.width * T then
      let gradient := easing (mc.x / (cv.width * T))
      let ma : ℤ := jsRound (gradient * jsMin w0.xOffset (M * delta))
      ({ w0 with xOffset := w0.xOffset - (ma : ℚ) },
       { sc0 with x := sc0.x - (ma : ℚ) }, true, false)
    -- Right (lines 168-174)
    else if mc.x > cv.width * (1 - T) then
      let gradient := easing ((cv.width - mc.x) / (cv.width * T))
      let ma : ℤ := jsRound (gradient * jsMin (w0.width - cv.width - w0.xOffset) (M * delta))
      ({ w0 with xOffset := w0.xOffset + (ma : ℚ) },
       { sc0 with x := sc0.x + (ma : ℚ) }, false, true)
    else (w0, sc0, false, false)
  let w1 := px.1
  let sc1 := px.2.1
  -- Up (lines 177-183)
  let py : World × Coords × Bool × Bool :=
    if mc.y < cv.height * T then
      let gradient := easing (mc.y / (cv.height * T))
      let ma : ℤ := jsRound (gradient * jsMin w1.yOffset (M * delta))
      ({ w1 with yOffset := w1.yOffset - (ma : ℚ) },
       { sc1 with y := sc1.y - (ma : ℚ) }, true, false)
    -- Down (lines 185-191)
    else if mc.y > cv.height * (1 - T) then
      let gradient := easing ((cv.height - mc.y) / (cv.height * T))
      let ma : ℤ := jsRound (gradient * jsMin (w1.height - cv.height - w1.yOffset) (M * delta))
      ({ w1 with yOffset := w1.yOffset + (ma : ℚ) },
       { sc1 with y := sc1.y + (ma : ℚ) }, false, true)
    else (w1, sc1, false, false)
  let w2 := py.1
  let sc2 := py.2.1
  -- line 194: translating = scrolled.x !== 0 && scrolled.y !== 0;
  let translating1 := decide (sc2.x ≠ 0) && decide (sc2.y ≠ 0)
  { world := w2
    scrolled := sc2
    translating := translating1
    firedLeft := px.2.2.1
    firedRight := px.2.2.2
    firedUp := py.2.2.1
    firedDown := py.2.2.2
    scrollOn := !initialTranslationState && translating1
    scrollOff := initialTranslationState && !translating1 }

/-- Embedding of `Mouse.Scroll.enable` (lines 223-253). If already
enabled it returns immediately (lines 224-226); otherwise it sets
`enabled`, attaches one handler per `$canvas.one`/`$canvas.on`
statement (lines 228, 235, 239, 247, 250) and declares a fresh
`mousedown` flag initialised to `false` (line 246). -/
def Scroll.enable (s : ScrollState) : ScrollState :=
  if s.enabled then s
  else
    { s with
      enabled := true
      mousedown := false
      moveOnceHandlers := s.moveOnceHandlers + 1
      enterHandlers := s.enterHandlers + 1
      leaveHandlers := s.leaveHandlers + 1
      downHandlers := s.downHandlers + 1
      upHandlers := s.upHandlers + 1 }

/-- Embedding of `Mouse.Scroll.disable` (lines 258-263):
`$canvas.off('.translate')` removes every handler in the `.translate`
namespace, then `hovered`, `enabled` and `translating` are cleared. -/
def Scroll.disable (s : ScrollState) : ScrollState :=
  { s with
    enabled := false
    hovered := false
    translating := false
    moveOnceHandlers := 0
    enterHandlers := 0
    leaveHandlers := 0
    downHandlers := 0
    upHandlers := 0 }

/-- Embedding of `Mouse.Scroll._update` (lines 284-289):

`if (hovered && !mousedown) { return translate(); }`

Scoping: `hovered` is the closure variable of line 141, but the
`mousedown` read on line 286 is NOT the flag of line 246 — that one is
declared with `var` inside the body of `enable` and is visible only to
the four handlers created there, not to `_update`. The identifier
`mousedown` is unbound in every scope enclosing `_update` (the
`Mouse.Scroll` closure declares `THRESHOLD`, `MOVEAMOUNT`, `enabled`,
`hovered`, `translating`, `scrolled`, `easings`, `easing` and
`translate`, and this file declares no global `mousedown`), so the
lookup is modelled by the `globalMousedown` parameter: `none` (the
state of this repository) makes the read throw a `ReferenceError`,
`some b` models a hypothetical global binding. Because `&&`
short-circuits, the read only happens when `hovered` is true. -/
def Scroll.update (globalMousedown : Option Bool) (easing : ℚ → ℚ)
    (T M delta : ℚ) (cv : Canvas) (mc : Coords) (w : World)
    (s : ScrollState) : Except JsError (World × ScrollState) :=
  if s.hovered then
    match globalMousedown with
    | none => .error .referenceError
    | some md =>
      if md then .ok (w, s)
      else
        let r := Scroll.translate easing T M delta cv mc w s.scrolled s.translating
        .ok (r.world, { s with scrolled := r.scrolled, translating := r.translating })
  else .ok (w, s)

/-! ### The easing table over `ℝ` (lines 147-152) -/

/-- `THRESHOLD: function() { return 1; }` (line 148). -/
def easings.THRESHOLD : ℝ → ℝ := fun _ => 1

/-- `LINEAR: function(val) { return 1-val; }` (line 149). -/
noncomputable def easings.LINEAR : ℝ → ℝ := fun val => 1 - val

/-- `SMOOTH: function(val) { return 0.5 - Math.cos( (1-val)*Math.PI ) / 2; }`
(line 150). -/
noncomputable def easings.SMOOTH : ℝ → ℝ :=
  fun val => 0.5 - Real.cos ((1 - val) * Real.pi) / 2

/-- `EXPONENTIAL: function(val) { return Math.sqrt(1-val); }` (line 151). -/
noncomputable def easings.EXPONENTIAL : ℝ → ℝ :=
  fun val => Real.sqrt (1 - val)

/-! ### Helper lemmas -/

/-- `jsMin` agrees with the lattice `min` on `ℚ`. -/
theorem jsMin_eq_min (a b : ℚ) : jsMin a b = min a b := by
  simp only [jsMin, min_def]

/-- `Math.round` of a non-negative number is non-negative. -/
theorem jsRound_nonneg {q : ℚ} (h : 0 ≤ q) : 0 ≤ jsRound q := by
  unfold jsRound
  exact Int.le_floor.mpr (by push_cast; linarith)

/-- `Math.round` never exceeds an integer upper bound of its argument. -/
theorem jsRound_le_intCast {q : ℚ} {n : ℤ} (h : q ≤ (n:ℚ)) : jsRound q ≤ n := by
  unfold jsRound
  have h2 : ⌊q + 1/2⌋ < n + 1 := Int.floor_lt.mpr (by push_cast; linarith)
  omega

/-- A rounded product `Math.round(gradient * room)` with a gradient in
`[0,1]` and a room between `0` and an integer `n` lies in `[0, n]`. -/
theorem gradient_mul_mem {g m : ℚ} {n : ℤ} (hg0 : 0 ≤ g) (hg1 : g ≤ 1)
    (hm0 : 0 ≤ m) (hmn : m ≤ (n:ℚ)) :
    0 ≤ jsRound (g * m) ∧ jsRound (g * m) ≤ n := by
  have h1 : 0 ≤ g * m := mul_nonneg hg0 hm0
  have h2 : g * m ≤ m := mul_le_of_le_one_left hm0 hg1
  exact ⟨jsRound_nonneg h1, jsRound_le_intCast (h2.trans hmn)⟩

/-- One axis of the `translate` branch structure keeps an offset inside
`[0, span]` provided the offset and the span are integers, the pointer
coordinate lies inside `[0, extent]` (so that every easing input is in
`[0, 1]`), the easing maps `[0,1]` into `[0,1]`, and the speed budget
`md = MOVEAMOUNT * App.physicsDelta` is non-negative. -/
theorem axis_offset_bounds (easing : ℚ → ℚ)
    (hE : ∀ v, 0 ≤ v → v ≤ 1 → 0 ≤ easing v ∧ easing v ≤ 1)
    (T md pos extent off span : ℚ) (a b : ℤ)
    (ha : off = (a:ℚ)) (hb : span = (b:ℚ)) (hmd : 0 ≤ md)
    (h0 : 0 ≤ off) (h1 : off ≤ span) (hp0 : 0 ≤ pos) (hp1 : pos ≤ extent) :
    0 ≤ (if pos < extent * T then
          off - (jsRound (easing (pos / (extent * T)) * jsMin off md) : ℚ)
        else if pos > extent * (1 - T) then
          off + (jsRound (easing ((extent - pos) / (extent * T)) * jsMin (span - off) md) : ℚ)
        else off) ∧
      (if pos < extent * T then
          off - (jsRound (easing (pos / (extent * T)) * jsMin off md) : ℚ)
        else if pos > extent * (1 - T) then
          off + (jsRound (easing ((extent - pos) / (extent * T)) * jsMin (span - off) md) : ℚ)
        else off) ≤ span := by
  split_ifs with hL hR
  · have hTpos : 0 < extent * T := lt_of_le_of_lt hp0 hL
    have hv0 : 0 ≤ pos / (extent * T) := div_nonneg hp0 hTpos.le
    have hv1 : pos / (extent * T) ≤ 1 := by
      rw [div_le_one hTpos]; exact hL.le
    obtain ⟨hg0, hg1⟩ := hE _ hv0 hv1
    have hm0 : 0 ≤ jsMin off md := by
      rw [jsMin_eq_min]; exact le_min h0 hmd
    have hmn : jsMin off md ≤ (a:ℚ) := by
      rw [jsMin_eq_min]; exact (min_le_left _ _).trans ha.le
    obtain ⟨hr0, hr1⟩ := gradient_mul_mem hg0 hg1 hm0 hmn
    have hr0Q : (0:ℚ) ≤ ((jsRound (easing (pos / (extent * T)) * jsMin off md)) : ℚ) := by
      exact_mod_cast hr0
    have hr1Q : ((jsRound (easing (pos / (extent * T)) * jsMin off md)) : ℚ) ≤ (a:ℚ) := by
      exact_mod_cast hr1
    constructor
    · linarith
    · linarith
  · have hnum0 : 0 ≤ extent - pos := by linarith
    have hkey : extent - extent * (1 - T) = extent * T := by ring
    have hnum1 : extent - pos < extent * T := by linarith
    have hTpos : 0 < extent * T := lt_of_le_of_lt hnum0 hnum1
    have hv0 : 0 ≤ (extent - pos) / (extent * T) := div_nonneg hnum0 hTpos.le
    have hv1 : (extent - pos) / (extent * T) ≤ 1 := by
      rw [div_le_one hTpos]; exact hnum1.le
    obtain ⟨hg0, hg1⟩ := hE _ hv0 hv1
    have hroom : span - off = ((b - a : ℤ):ℚ) := by rw [ha, hb]; push_cast; ring
    have hm0 : 0 ≤ jsMin (span - off) md := by
      rw [jsMin_eq_min]; exact le_min (by linarith) hmd
    have hmn : jsMin (span - off) md ≤ ((b - a : ℤ):ℚ) := by
      rw [jsMin_eq_min]; exact (min_le_left _ _).trans hroom.le
    obtain ⟨hr0, hr1⟩ := gradient_mul_mem hg0 hg1 hm0 hmn
    have hr0Q : (0:ℚ) ≤ ((jsRound (easing ((extent - pos) / (extent * T)) * jsMin (span - off) md)) : ℚ) := by
      exact_mod_cast hr0
    have hr1Q : ((jsRound (easing ((extent - pos) / (extent * T)) * jsMin (span - off) md)) : ℚ) ≤ ((b - a : ℤ):ℚ) := by
      exact_mod_cast hr1
    have hba : ((b - a : ℤ):ℚ) = (b:ℚ) - (a:ℚ) := by push_cast; ring
    constructor
    · linarith
    · rw [ha, hb] at *; linarith [hr1Q]
  · exact ⟨h0, h1⟩

/-- Characterisation of the horizontal offset produced by one
`translate` call: only the Left/Right pair (lines 160-174) touches
`world.xOffset`, and the vertical pair leaves it unchanged. -/
theorem Scroll.translate_xOffset (easing : ℚ → ℚ) (T M delta : ℚ) (cv : Canvas)
    (mc : Coords) (w : World) (sc : Coords) (tr : Bool) :
    (Scroll.translate easing T M delta cv mc w sc tr).world.xOffset =
      if mc.x < cv.width * T then
        w.xOffset - (jsRound (easing (mc.x / (cv.width * T)) * jsMin w.xOffset (M * delta)) : ℚ)
      else if mc.x > cv.width * (1 - T) then
        w.xOffset + (jsRound (easing ((cv.width - mc.x) / (cv.width * T)) *
          jsMin (w.width - cv.width - w.xOffset) (M * delta)) : ℚ)
      else w.xOffset := by
  simp only [Scroll.translate]
  split_ifs <;> rfl

/-- Characterisation of the vertical offset produced by one `translate`
call: only the Up/Down pair (lines 177-191) touches `world.yOffset`,
and the horizontal pair leaves `yOffset`, `height` untouched. -/
theorem Scroll.translate_yOffset (easing : ℚ → ℚ) (T M delta : ℚ) (cv : Canvas)
    (mc : Coords) (w : World) (sc : Coords) (tr : Bool) :
    (Scroll.translate easing T M delta cv mc w sc tr).world.yOffset =
      if mc.y < cv.height * T then
        w.yOffset - (jsRound (easing (mc.y / (cv.height * T)) * jsMin w.yOffset (M * delta)) : ℚ)
      else if mc.y > cv.height * (1 - T) then
        w.yOffset + (jsRound (easing ((cv.height - mc.y) / (cv.height * T)) *
          jsMin (w.height - cv.height - w.yOffset) (M * delta)) : ℚ)
      else w.yOffset := by
  simp only [Scroll.translate]
  split_ifs <;> rfl

/-! ### Claim theorems -/

/-- Claim C1 (evidence of a code bug). The claim states that after the
per-tick translate routine has processed both axes, `translating` is
true iff at least one axis produced a nonzero shift during that tick.
The source instead computes
`translating = scrolled.x !== 0 && scrolled.y !== 0` (line 194) over
the CUMULATIVE `scrolled` record, which is never reset. Concretely:
with `scrolled = (0,0)`, `translating = false`, a 1000x1000 canvas,
threshold 0.2, `LINEAR` easing, max speed 350, delta 1 s and the
pointer at (50, 500), the tick shifts the horizontal axis by -263
pixels (nonzero) yet leaves `translating` false and fires no
`mousescrollon` start notification — contradicting the claim and the
source's own comment (line 193) and event documentation
(lines 198-204). -/
theorem C1_single_axis_tick_leaves_translating_false :
    (Scroll.translate (fun v => 1 - v) (1/5) 350 1 ⟨1000, 1000⟩ ⟨50, 500⟩
      ⟨500, 500, 2000, 2000⟩ ⟨0, 0⟩ false).scrolled = ⟨-263, 0⟩ ∧
    (Scroll.translate (fun v => 1 - v) (1/5) 350 1 ⟨1000, 1000⟩ ⟨50, 500⟩
      ⟨500, 500, 2000, 2000⟩ ⟨0, 0⟩ false).translating = false ∧
    (Scroll.translate (fun v => 1 - v) (1/5) 350 1 ⟨1000, 1000⟩ ⟨50, 500⟩
      ⟨500, 500, 2000, 2000⟩ ⟨0, 0⟩ false).scrollOn = false := by
  norm_num [Scroll.translate, jsRound, jsMin]

/-- Claim C2, counterexample to the claim as stated. All of the
claim's hypotheses hold at this input: the easing is the source's
`THRESHOLD` function (constant 1, which maps `[0,1]` into `[0,1]`),
`world.xOffset = 1/2` lies in `[0, world.width - canvas.width]` and
`world.yOffset = 500` lies in `[0, world.height - canvas.height]`.
Yet with the pointer at the left edge the shift is
`Math.round(1 * Math.min(1/2, 350)) = Math.round(1/2) = 1`, driving
`world.xOffset` to `-1/2 < 0`. -/
theorem C2_fractional_offset_counterexample :
    (0:ℚ) ≤ 1/2 ∧ (1/2:ℚ) ≤ 2000 - 1000 ∧ (0:ℚ) ≤ 500 ∧ (500:ℚ) ≤ 2000 - 1000 ∧
    (Scroll.translate (fun _ => 1) (1/5) 350 1 ⟨1000, 1000⟩ ⟨0, 500⟩
      ⟨1/2, 500, 2000, 2000⟩ ⟨0, 0⟩ false).world.xOffset < 0 := by
  norm_num [Scroll.translate, jsRound, jsMin]

/-- Claim C2 as amended: if additionally the starting offsets and the
world-minus-surface spans are whole numbers, the pointer coordinates
lie within the surface (`[0, canvas.width] x [0, canvas.height]`, so
every easing input is in `[0,1]`), and the per-tick speed budget
`MOVEAMOUNT * App.physicsDelta` is non-negative, then one invocation of
`translate` keeps `world.xOffset` in `[0, world.width - canvas.width]`
and `world.yOffset` in `[0, world.height - canvas.height]`. -/
theorem C2_offsets_remain_in_bounds (easing : ℚ → ℚ)
    (hE : ∀ v, 0 ≤ v → v ≤ 1 → 0 ≤ easing v ∧ easing v ≤ 1)
    (T M delta : ℚ) (hMd : 0 ≤ M * delta)
    (cv : Canvas) (mc : Coords) (w : World) (sc : Coords) (tr : Bool)
    (a b c d : ℤ)
    (hxa : w.xOffset = (a:ℚ)) (hxb : w.width - cv.width = (b:ℚ))
    (hyc : w.yOffset = (c:ℚ)) (hyd : w.height - cv.height = (d:ℚ))
    (hx0 : 0 ≤ w.xOffset) (hx1 : w.xOffset ≤ w.width - cv.width)
    (hy0 : 0 ≤ w.yOffset) (hy1 : w.yOffset ≤ w.height - cv.height)
    (hmx0 : 0 ≤ mc.x) (hmx1 : mc.x ≤ cv.width)
    (hmy0 : 0 ≤ mc.y) (hmy1 : mc.y ≤ cv.height) :
    (0 ≤ (Scroll.translate easing T M delta cv mc w sc tr).world.xOffset ∧
      (Scroll.translate easing T M delta cv mc w sc tr).world.xOffset ≤ w.width - cv.width) ∧
    (0 ≤ (Scroll.translate easing T M delta cv mc w sc tr).world.yOffset ∧
      (Scroll.translate easing T M delta cv mc w sc tr).world.yOffset ≤ w.height - cv.height) := by
  constructor
  · rw [Scroll.translate_xOffset]
    exact axis_offset_bounds easing hE T (M * delta) mc.x cv.width w.xOffset
      (w.width - cv.width) a b hxa hxb hMd hx0 hx1 hmx0 hmx1
  · rw [Scroll.translate_yOffset]
    exact axis_offset_bounds easing hE T (M * delta) mc.y cv.height w.yOffset
      (w.height - cv.height) c d hyc hyd hMd hy0 hy1 hmy0 hmy1

/-- Witness for C2: a concrete instantiation with `LINEAR` easing,
threshold 0.2, 1000x1000 canvas, 2000x2000 world, integer offsets 500
and pointer (50, 500). -/
theorem C2_offsets_remain_in_bounds_witness :
    (0:ℚ) ≤ 500 ∧ (500:ℚ) ≤ 2000 - 1000 ∧
    ((0 ≤ (Scroll.translate (fun v => 1 - v) (1/5) 350 1 ⟨1000, 1000⟩ ⟨50, 500⟩
        ⟨500, 500, 2000, 2000⟩ ⟨0, 0⟩ false).world.xOffset ∧
      (Scroll.translate (fun v => 1 - v) (1/5) 350 1 ⟨1000, 1000⟩ ⟨50, 500⟩
        ⟨500, 500, 2000, 2000⟩ ⟨0, 0⟩ false).world.xOffset ≤ 2000 - 1000) ∧
     (0 ≤ (Scroll.translate (fun v => 1 - v) (1/5) 350 1 ⟨1000, 1000⟩ ⟨50, 500⟩
        ⟨500, 500, 2000, 2000⟩ ⟨0, 0⟩ false).world.yOffset ∧
      (Scroll.translate (fun v => 1 - v) (1/5) 350 1 ⟨1000, 1000⟩ ⟨50, 500⟩
        ⟨500, 500, 2000, 2000⟩ ⟨0, 0⟩ false).world.yOffset ≤ 2000 - 1000)) :=
  ⟨by norm_num, by norm_num,
    C2_offsets_remain_in_bounds (fun v => 1 - v)
      (fun v hv0 hv1 => ⟨by show (0:ℚ) ≤ 1 - v; linarith, by show (1:ℚ) - v ≤ 1; linarith⟩)
      (1/5) 350 1 (by norm_num) ⟨1000, 1000⟩ ⟨50, 500⟩ ⟨500, 500, 2000, 2000⟩ ⟨0, 0⟩ false
      500 1000 500 1000
      (by norm_num) (by norm_num) (by norm_num) (by norm_num)
      (by norm_num) (by norm_num) (by norm_num) (by norm_num)
      (by norm_num) (by norm_num) (by norm_num) (by norm_num)⟩

/-- Claim C3: `App.isHovered` returns true exactly when the pointer's
surface coordinates lie strictly inside the translated rectangle on
all four sides; on any boundary or outside it returns false. -/
theorem C3_isHovered_strict_interior_iff (off mouse : Coords) (obj : Box) :
    App.isHovered off mouse obj = true ↔
      (obj.x - off.x < mouse.x ∧ mouse.x < obj.x - off.x + obj.width ∧
       obj.y - off.y < mouse.y ∧ mouse.y < obj.y - off.y + obj.height) := by
  simp [App.isHovered, and_assoc]

/-- Claim C4, counterexample to the clamping clause as stated. With
threshold 0.2, canvas width 1000, pointer x = 50, `LINEAR` easing, max
speed 350 and delta 1 s, a fractional starting offset
`world.xOffset = 7/10 < 350` yields
`Math.round((3/4) * (7/10)) = Math.round(0.525) = 1`, driving the
offset to `-3/10`: the decrease is NOT clamped at 0. -/
theorem C4_clamp_counterexample :
    (0:ℚ) ≤ 7/10 ∧ (7/10:ℚ) < 350 ∧
    (Scroll.translate (fun v => 1 - v) (1/5) 350 1 ⟨1000, 1000⟩ ⟨50, 500⟩
      ⟨7/10, 500, 2000, 2000⟩ ⟨0, 0⟩ false).world.xOffset < 0 := by
  norm_num [Scroll.translate, jsRound, jsMin]

/-- Claim C4 as amended: with threshold 0.2, canvas width 1000,
pointer x = 50, `LINEAR` easing, max speed 350, delta 1 s and a WHOLE
starting offset `xOff ≥ 0` (arbitrary pointer y): if `xOff ≥ 350` the
invocation decreases `world.xOffset` by exactly
`round((1 - 50/200) * 350) = 263` pixels, and if `xOff < 350` the new
offset stays in `[0, xOff]` (the decrease never overshoots below 0). -/
theorem C4_left_band_linear_shift (xOff cy : ℚ) (n : ℤ)
    (hn : xOff = (n:ℚ)) (h0 : 0 ≤ xOff) :
    (350 ≤ xOff →
      (Scroll.translate (fun v => 1 - v) (1/5) 350 1 ⟨1000, 1000⟩ ⟨50, cy⟩
        ⟨xOff, 500, 2000, 2000⟩ ⟨0, 0⟩ false).world.xOffset = xOff - 263) ∧
    (xOff < 350 →
      0 ≤ (Scroll.translate (fun v => 1 - v) (1/5) 350 1 ⟨1000, 1000⟩ ⟨50, cy⟩
        ⟨xOff, 500, 2000, 2000⟩ ⟨0, 0⟩ false).world.xOffset ∧
      (Scroll.translate (fun v => 1 - v) (1/5) 350 1 ⟨1000, 1000⟩ ⟨50, cy⟩
        ⟨xOff, 500, 2000, 2000⟩ ⟨0, 0⟩ false).world.xOffset ≤ xOff) := by
  rw [Scroll.translate_xOffset]
  dsimp only
  constructor
  · intro h350
    rw [if_pos (by norm_num)]
    have hmin : jsMin xOff (350 * 1) = 350 := by
      unfold jsMin
      split_ifs with h
      · linarith
      · norm_num
    rw [hmin]
    norm_num [jsRound]
  · intro h350
    rw [if_pos (by norm_num)]
    have hmin : jsMin xOff (350 * 1) = xOff := by
      unfold jsMin
      rw [if_pos (by linarith)]
    rw [hmin]
    obtain ⟨hr0, hr1⟩ := gradient_mul_mem (g := 1 - (50:ℚ) / (1000 * (1/5))) (m := xOff) (n := n)
      (by norm_num) (by norm_num) h0 (by rw [← hn])
    have hr0Q : (0:ℚ) ≤ ((jsRound ((1 - (50:ℚ) / (1000 * (1/5))) * xOff)) : ℚ) := by
      exact_mod_cast hr0
    have hr1Q : ((jsRound ((1 - (50:ℚ) / (1000 * (1/5))) * xOff)) : ℚ) ≤ (n:ℚ) := by
      exact_mod_cast hr1
    constructor
    · linarith [hn]
    · linarith

/-- Witness for C4: starting at `world.xOffset = 500 ≥ 350` the
invocation lands at exactly `500 - 263 = 237`. -/
theorem C4_left_band_linear_shift_witness :
    (500:ℚ) = ((500:ℤ):ℚ) ∧ (0:ℚ) ≤ 500 ∧ (350:ℚ) ≤ 500 ∧
    (Scroll.translate (fun v => 1 - v) (1/5) 350 1 ⟨1000, 1000⟩ ⟨50, 500⟩
      ⟨500, 500, 2000, 2000⟩ ⟨0, 0⟩ false).world.xOffset = 500 - 263 :=
  ⟨by norm_num, by norm_num, by norm_num,
    (C4_left_band_linear_shift 500 500 500 (by norm_num) (by norm_num)).1 (by norm_num)⟩

/-- Claim C5: the hover-out handler (mouse leaving the surface) resets
the tracked pointer position to the sentinel `(-9999, -9999)`, and
with the sentinel position `App.isHovered` returns false for every
rectangle whose translated bounds lie in non-negative surface
coordinates. -/
theorem C5_mouseleave_sentinel_no_hover (s : TrackerState) (obj : Box) (off : Coords)
    (hx : 0 ≤ obj.x - off.x) (hy : 0 ≤ obj.y - off.y) :
    (hoverOutHandler s).coords = ⟨-9999, -9999⟩ ∧
      App.isHovered off (hoverOutHandler s).coords obj = false := by
  refine ⟨rfl, ?_⟩
  simp only [hoverOutHandler, App.isHovered]
  have hxq : ¬ (obj.x - off.x < (-9999 : ℚ)) := by linarith
  have hyq : ¬ (obj.y - off.y < (-9999 : ℚ)) := by linarith
  simp [hxq, hyq]

/-- Witness for C5: the rectangle at world position (10, 10) of size
5x5 with zero viewport offsets. -/
theorem C5_mouseleave_sentinel_no_hover_witness :
    (0:ℚ) ≤ 10 - 0 ∧
    (hoverOutHandler ⟨⟨3, 4⟩, true⟩).coords = ⟨-9999, -9999⟩ ∧
      App.isHovered ⟨0, 0⟩ (hoverOutHandler ⟨⟨3, 4⟩, true⟩).coords ⟨10, 10, 5, 5⟩ = false :=
  ⟨by norm_num,
    C5_mouseleave_sentinel_no_hover ⟨⟨3, 4⟩, true⟩ ⟨10, 10, 5, 5⟩ ⟨0, 0⟩
      (by norm_num) (by norm_num)⟩

/-- Claim C6 (evidence of a code bug). The claim says that while a
press is held (the `mousedown` flag set by the press handler is true),
every `_update` invocation is a no-op. In the source the flag set by
the press handler is the `var` declared INSIDE `enable` (line 246),
which is not in scope in `_update` (line 286); the identifier
`mousedown` is unbound there. Concretely, with the scroller enabled
and hovered, a press held (closure flag true) and the pointer in the
left band: reading `mousedown` throws a `ReferenceError` instead of
quietly doing nothing (first conjunct); and even under a hypothetical
global `mousedown = false` binding, the press would not stop the tick,
which scrolls the viewport from `xOffset = 500` to `237` (second
conjunct). Either way `_update` is not the claimed no-op. -/
theorem C6_update_while_pressed_not_noop :
    Scroll.update none (fun v => 1 - v) (1/5) 350 1 ⟨1000, 1000⟩ ⟨50, 500⟩
      ⟨500, 500, 2000, 2000⟩ ⟨true, true, true, false, ⟨0, 0⟩, 1, 1, 1, 1, 1⟩ =
      .error .referenceError ∧
    Scroll.update (some false) (fun v => 1 - v) (1/5) 350 1 ⟨1000, 1000⟩ ⟨50, 500⟩
      ⟨500, 500, 2000, 2000⟩ ⟨true, true, true, false, ⟨0, 0⟩, 1, 1, 1, 1, 1⟩ =
      .ok (⟨237, 500, 2000, 2000⟩, ⟨true, true, true, false, ⟨-263, 0⟩, 1, 1, 1, 1, 1⟩) := by
  constructor
  · rfl
  · norm_num [Scroll.update, Scroll.translate, jsRound, jsMin]

/-- Claim C7: if reading a movement event's coordinates throws, the
exception is caught inside `trackmove`, `Mouse.coords` is left
unchanged, and a subsequent well-formed movement event is processed
normally (its canvas-relative coordinates are stored). -/
theorem C7_trackmove_catches_and_continues (off : Coords) (s : TrackerState)
    (e eGood : JsEvent) (err : JsError) (x y : ℚ)
    (hbad : readEventCoords e = .error err)
    (hgood : readEventCoords eGood = .ok (x, y)) :
    (trackmove off e s).1 = s ∧
      (trackmove off eGood (trackmove off e s).1).1.coords =
        ⟨x - off.x, y - off.y⟩ := by
  constructor
  · simp [trackmove, hbad]
  · simp [trackmove, hbad, hgood]

/-- Witness for C7: a malformed `touchmove` event with no coordinate
fields and no touch list (reading throws a `TypeError`), followed by a
well-formed mouse move at page position (100, 50) over a canvas at
page offset (10, 20). -/
theorem C7_trackmove_catches_and_continues_witness :
    readEventCoords ⟨EventType.touchmove, none, none, none⟩ = .error .typeError ∧
    readEventCoords ⟨EventType.mousemove, some 100, some 50, none⟩ = .ok (100, 50) ∧
    ((trackmove ⟨10, 20⟩ ⟨EventType.touchmove, none, none, none⟩ ⟨⟨1, 2⟩, true⟩).1 = ⟨⟨1, 2⟩, true⟩ ∧
      (trackmove ⟨10, 20⟩ ⟨EventType.mousemove, some 100, some 50, none⟩
        (trackmove ⟨10, 20⟩ ⟨EventType.touchmove, none, none, none⟩ ⟨⟨1, 2⟩, true⟩).1).1.coords =
        ⟨100 - 10, 50 - 20⟩) := by
  have h1 : readEventCoords ⟨EventType.touchmove, none, none, none⟩ = .error .typeError := rfl
  have h2 : readEventCoords ⟨EventType.mousemove, some 100, some 50, none⟩ = .ok (100, 50) := by
    norm_num [readEventCoords, readX, readY]
  exact ⟨h1, h2,
    C7_trackmove_catches_and_continues ⟨10, 20⟩ ⟨⟨1, 2⟩, true⟩ _ _ JsError.typeError 100 50 h1 h2⟩

/-- Claim C8: within a single `translate` invocation, at most one of
the Left and Right branches runs on the horizontal axis and at most
one of the Up and Down branches runs on the vertical axis (each pair
is an `if / else if`). -/
theorem C8_axis_branches_mutually_exclusive (easing : ℚ → ℚ) (T M delta : ℚ)
    (cv : Canvas) (mc : Coords) (w : World) (sc : Coords) (tr : Bool) :
    ((Scroll.translate easing T M delta cv mc w sc tr).firedLeft &&
      (Scroll.translate easing T M delta cv mc w sc tr).firedRight) = false ∧
    ((Scroll.translate easing T M delta cv mc w sc tr).firedUp &&
      (Scroll.translate easing T M delta cv mc w sc tr).firedDown) = false := by
  simp only [Scroll.translate]
  split_ifs <;> simp

/-- Claim C9: each of the four named easing functions computes exactly
its specified formula — `THRESHOLD` the constant 1, `LINEAR` `1 - val`,
`SMOOTH` `0.5 - cos((1-val)*π)/2`, `EXPONENTIAL` `sqrt(1-val)` — and
for every `val` in `[0,1]` each returns a value in `[0,1]`. -/
theorem C9_easing_formulas_and_range (val : ℝ) (h0 : 0 ≤ val) (h1 : val ≤ 1) :
    easings.THRESHOLD val = 1 ∧
    easings.LINEAR val = 1 - val ∧
    easings.SMOOTH val = 0.5 - Real.cos ((1 - val) * Real.pi) / 2 ∧
    easings.EXPONENTIAL val = Real.sqrt (1 - val) ∧
    (0 ≤ easings.THRESHOLD val ∧ easings.THRESHOLD val ≤ 1) ∧
    (0 ≤ easings.LINEAR val ∧ easings.LINEAR val ≤ 1) ∧
    (0 ≤ easings.SMOOTH val ∧ easings.SMOOTH val ≤ 1) ∧
    (0 ≤ easings.EXPONENTIAL val ∧ easings.EXPONENTIAL val ≤ 1) := by
  have hc1 : Real.cos ((1 - val) * Real.pi) ≤ 1 := Real.cos_le_one _
  have hc2 : -1 ≤ Real.cos ((1 - val) * Real.pi) := Real.neg_one_le_cos _
  refine ⟨rfl, rfl, rfl, rfl,
    ⟨by norm_num [easings.THRESHOLD], by norm_num [easings.THRESHOLD]⟩,
    ⟨?_, ?_⟩, ⟨?_, ?_⟩, ⟨?_, ?_⟩⟩
  · simp only [easings.LINEAR]; linarith
  · simp only [easings.LINEAR]; linarith
  · simp only [easings.SMOOTH]; norm_num; linarith
  · simp only [easings.SMOOTH]; norm_num; linarith
  · exact Real.sqrt_nonneg _
  · simp only [easings.EXPONENTIAL]
    calc Real.sqrt (1 - val) ≤ Real.sqrt 1 := Real.sqrt_le_sqrt (by linarith)
      _ = 1 := Real.sqrt_one

/-- Witness for C9 at `val = 0` (the pointer exactly at the edge,
where every easing evaluates to full speed 1). -/
theorem C9_easing_formulas_and_range_witness :
    (0:ℝ) ≤ 0 ∧ (0:ℝ) ≤ 1 ∧
    (easings.THRESHOLD 0 = 1 ∧
     easings.LINEAR 0 = 1 - 0 ∧
     easings.SMOOTH 0 = 0.5 - Real.cos ((1 - 0) * Real.pi) / 2 ∧
     easings.EXPONENTIAL 0 = Real.sqrt (1 - 0) ∧
     (0 ≤ easings.THRESHOLD 0 ∧ easings.THRESHOLD 0 ≤ 1) ∧
     (0 ≤ easings.LINEAR 0 ∧ easings.LINEAR 0 ≤ 1) ∧
     (0 ≤ easings.SMOOTH 0 ∧ easings.SMOOTH 0 ≤ 1) ∧
     (0 ≤ easings.EXPONENTIAL 0 ∧ easings.EXPONENTIAL 0 ≤ 1)) :=
  ⟨le_refl 0, by norm_num, C9_easing_formulas_and_range 0 (le_refl 0) (by norm_num)⟩

/-- Claim C10: `enable` is idempotent — calling it on an
already-enabled scroller returns the state unchanged (attaching no
additional handlers), and for every state `enable` after `enable`
equals a single `enable`. -/
theorem C10_enable_idempotent :
    (∀ s : ScrollState, s.enabled = true → Scroll.enable s = s) ∧
    (∀ s : ScrollState, Scroll.enable (Scroll.enable s) = Scroll.enable s) := by
  constructor
  · intro s h
    simp [Scroll.enable, h]
  · intro s
    by_cases h : s.enabled = true
    · simp [Scroll.enable, h]
    · simp only [Bool.not_eq_true] at h
      simp [Scroll.enable, h]

/-- Witness for C10: an already-enabled state with one handler of each
kind attached; a second `enable` returns it unchanged. -/
theorem C10_enable_idempotent_witness :
    (⟨true, false, false, false, ⟨0, 0⟩, 1, 1, 1, 1, 1⟩ : ScrollState).enabled = true ∧
    Scroll.enable ⟨true, false, false, false, ⟨0, 0⟩, 1, 1, 1, 1, 1⟩ =
      ⟨true, false, false, false, ⟨0, 0⟩, 1, 1, 1, 1, 1⟩ :=
  ⟨rfl, C10_enable_idempotent.1 _ rfl⟩
